import Mathlib

/-!
Shallow embedding of the document-classification pipeline of the
`join-the-siege` repository (src/config.py, src/extractor.py,
src/gemini.py, src/classifier.py).

Modelling conventions:
* Python strings are Lean `String`s, manipulated through their character
  lists (ASCII-faithful models of `str.lower`, `str.strip`,
  `str.replace`, and the `in` substring test).
* The remote Gemini service and the binary-format parser libraries
  (PyPDF2, pytesseract, python-docx, openpyxl, python-magic) are external
  collaborators; their behaviour on a given request is supplied by an
  oracle record `Env`.  An `Except`-valued field models a library call
  that either returns a value or raises.
* A werkzeug `FileStorage` is a byte buffer plus a stream position
  (`FileSt`).  The set of extant temporary on-disk artifacts is a list of
  names (`List Nat`).
* Each function that issues remote calls also returns the number of
  remote calls it issued, so that tier short-circuiting is observable.
-/

namespace JoinTheSiege

/-- ASCII whitespace as recognised by Python `str.strip()`. -/
def pyIsSpace (c : Char) : Bool :=
  c = ' ' || c = '\t' || c = '\n' || c = '\r' || c = Char.ofNat 11 || c = Char.ofNat 12

/-- Python `str.strip()` over a character list: drop whitespace at both ends. -/
def pyStripL (l : List Char) : List Char :=
  ((l.dropWhile pyIsSpace).reverse.dropWhile pyIsSpace).reverse

/-- Python `s.strip()`. -/
def pyStrip (s : String) : String := String.mk (pyStripL s.data)

/-- Python `s.lower()` (ASCII-faithful). -/
def pyLower (s : String) : String := String.mk (s.data.map Char.toLower)

/-- The apostrophe character (U+0027). -/
def apQuote : Char := Char.ofNat 39

/-- Python `s.replace(<apostrophe>, "")`: delete every apostrophe. -/
def dropQuotes (s : String) : String := String.mk (s.data.filter (fun c => !(c = apQuote)))

/-- Does `hay` start with `needle`? (helper for the substring test) -/
def leadsWith : List Char → List Char → Bool
  | [], _ => true
  | _ :: _, [] => false
  | a :: as, b :: bs => a = b && leadsWith as bs

/-- Does `needle` occur contiguously inside `hay`? -/
def containsSeq : List Char → List Char → Bool
  | needle, [] => leadsWith needle []
  | needle, b :: bs => leadsWith needle (b :: bs) || containsSeq needle bs

/-- Python substring test `needle in hay`. -/
def pySubstr (needle hay : String) : Bool := containsSeq needle.data hay.data

/-- Python `"\n".join(parts)`. -/
def joinNL : List String → String
  | [] => ""
  | [s] => s
  | s :: rest => s ++ "\n" ++ joinNL rest

/-! ## src/config.py -/

/-- One entry of `FILENAME_CLASSIFICATION_RULES`: a keyword list and a category. -/
structure Rule where
  keywords : List String
  category : String
deriving DecidableEq

/-- config.py `FILENAME_CLASSIFICATION_RULES`, verbatim, in table order. -/
def FILENAME_CLASSIFICATION_RULES : List Rule :=
  [⟨["drivers_licence", "driver licence", "dl", "drivers_license", "driver license"],
     "drivers_licence"⟩,
   ⟨["bank_statement", "bank statement"], "bank_statement"⟩,
   ⟨["invoice", "inv"], "invoice"⟩,
   ⟨["passport"], "passport"⟩,
   ⟨["utility_bill", "utility bill"], "utility_bill"⟩,
   ⟨["check"], "check"⟩,
   ⟨["credit_card", "credit card"], "credit_card"⟩,
   ⟨["debit_card", "debit card"], "debit_card"⟩,
   ⟨["receipt", "reciept"], "receipt"⟩,
   ⟨["tax_form", "tax form"], "tax_form"⟩,
   ⟨["work_permit", "work permit"], "work_permit"⟩]

/-- config.py `POSSIBLE_CATEGORIES = list(set(rule["category"] for rule in ...))`.
`list(set(...))` deduplicates with unspecified order; only membership is observable. -/
def POSSIBLE_CATEGORIES : List String :=
  (FILENAME_CLASSIFICATION_RULES.map Rule.category).dedup

/-! ## src/gemini.py: response normalization and validation -/

/-- gemini.py line 29: `prediction_text.strip().lower().replace(<apostrophe>, "")`. -/
def cleanedPrediction (prediction_text : String) : String :=
  dropQuotes (pyLower (pyStrip prediction_text))

/-- gemini.py `_clean_and_validate_prediction`: accept the cleaned reply only if it
is a member of `POSSIBLE_CATEGORIES`, else fall back to `"unknown file"`. -/
def clean_and_validate_prediction (prediction_text : String) : String :=
  if cleanedPrediction prediction_text ∈ POSSIBLE_CATEGORIES then
    cleanedPrediction prediction_text
  else "unknown file"

/-! ## Oracle environment and file-stream state -/

/-- Outcome of `client.files.upload` in gemini.py. -/
inductive UploadOutcome
  | raises        -- the call raised an exception
  | falsyResource -- it returned an object that tests false
  | resource      -- it returned a usable file resource
deriving DecidableEq

/-- A werkzeug `FileStorage`: filename, byte payload, and stream position. -/
structure FileSt where
  filename : String
  data : List Char
  pos : Nat
deriving DecidableEq

/-- Per-request behaviour of the external collaborators: the detected MIME
type (python-magic), each parser library's outcome (`.error` models a raised
exception, and for the stream-consuming parsers the position where the parser
leaves the stream), and the remote Gemini calls' outcomes. -/
structure Env where
  apiKey : Option String                -- GEMINI_API_KEY (None when unset)
  mime : String                         -- magic.from_buffer(file_bytes, mime=True)
  pdfPages : Except Unit (List String)  -- PdfReader page.extract_text() results
  pdfFinalPos : Nat
  ocrText : Except Unit String          -- pytesseract.image_to_string
  docxParas : Except Unit (List String) -- docx paragraph texts in order
  docxFinalPos : Nat
  xlsxCells : Except Unit (List String) -- string-typed cell values in sheet/row order
  xlsxFinalPos : Nat
  textResponse : Except Unit String     -- generate_content reply for the text prompt
  uploadOutcome : UploadOutcome
  fileResponse : Except Unit String     -- generate_content reply for the file prompt

/-! ## src/extractor.py -/

def mimePdf : String := "application/pdf"
def mimeDocx : String :=
  "application/vnd.openxmlformats-officedocument.wordprocessingml.document"
def mimeXlsx : String :=
  "application/vnd.openxmlformats-officedocument.spreadsheetml.sheet"
def imageMimes : List String := ["image/png", "image/jpeg", "image/tiff"]

/-- extractor.py line 117: `"\n".join(text_parts).strip() if text_parts else None`. -/
def finishParts (text_parts : List String) : Option String :=
  if text_parts = [] then none else some (pyStrip (joinNL text_parts))

/-- extractor.py `extract_text_from_file`.  The function seeks to 0, reads the
full payload, seeks to 0 again, then dispatches on the detected MIME type; a
parser exception is caught and yields `none`; an unsupported type yields
`none`.  The returned `FileSt` records the stream state after the call: the
PDF/DOCX/XLSX parsers consume the stream object itself (final position from
the oracle), while the image/plain-text branches work on the copied bytes and
leave the position at 0 (set by the seek after the initial read). -/
def extract_text_from_file (env : Env) (file : FileSt) : Option String × FileSt :=
  let file_bytes := file.data
  if env.mime = mimePdf then
    match env.pdfPages with
    | .error _ => (none, ⟨file.filename, file.data, env.pdfFinalPos⟩)
    | .ok pages =>
      (finishParts (pages.filter (fun t => !(t = ""))),
       ⟨file.filename, file.data, env.pdfFinalPos⟩)
  else if env.mime ∈ imageMimes then
    match env.ocrText with
    | .error _ => (none, ⟨file.filename, file.data, 0⟩)
    | .ok t =>
      (finishParts (if t = "" then [] else [t]), ⟨file.filename, file.data, 0⟩)
  else if env.mime = mimeDocx then
    match env.docxParas with
    | .error _ => (none, ⟨file.filename, file.data, env.docxFinalPos⟩)
    | .ok paras =>
      (finishParts (paras.filter (fun t => !(t = ""))),
       ⟨file.filename, file.data, env.docxFinalPos⟩)
  else if env.mime = mimeXlsx then
    match env.xlsxCells with
    | .error _ => (none, ⟨file.filename, file.data, env.xlsxFinalPos⟩)
    | .ok cells =>
      (finishParts (cells.filter (fun t => !(t = ""))),
       ⟨file.filename, file.data, env.xlsxFinalPos⟩)
  else if env.mime = "text/plain" then
    -- the decoded bytes are appended unconditionally (extractor.py line 95)
    (finishParts [String.mk file_bytes], ⟨file.filename, file.data, 0⟩)
  else
    (none, ⟨file.filename, file.data, 0⟩)

/-! ## src/classifier.py and src/gemini.py -/

/-- Python truthiness of an `Optional[str]`: `None` and `""` are falsy. -/
def truthyOpt (o : Option String) : Bool := !((o.getD "") = "")

/-- classifier.py line 24: `any(keyword in filename_lower for keyword in rule["keywords"])`. -/
def ruleMatches (rule : Rule) (filename_lower : String) : Bool :=
  rule.keywords.any (fun keyword => pySubstr keyword filename_lower)

/-- classifier.py lines 23-27: scan the rules in table order, returning the
first matching rule's category. -/
def scanRules : List Rule → String → Option String
  | [], _ => none
  | rule :: rest, filename_lower =>
    if ruleMatches rule filename_lower then some rule.category
    else scanRules rest filename_lower

/-- classifier.py `classify_by_filename`: lower-case the filename, first
matching rule wins, `None` when nothing matches. -/
def classify_by_filename (filename : String) : Option String :=
  scanRules FILENAME_CLASSIFICATION_RULES (pyLower filename)

/-- Python truthiness of `GEMINI_API_KEY` (`None` and `""` are falsy). -/
def keyFalsy (k : Option String) : Bool := (k.getD "") = ""

/-- gemini.py `classify_text_with_gemini`; the `Nat` counts remote calls
issued.  Prompt construction and the 4000-character truncation do not affect
the oracle reply; an exception from the API call is caught and yields `none`. -/
def classify_text_with_gemini (env : Env) (text : String) : Option String × Nat :=
  if keyFalsy env.apiKey then (none, 0)
  else if text = "" then (none, 0)
  else
    match env.textResponse with
    | .error _ => (none, 1)
    | .ok reply => (some (clean_and_validate_prediction reply), 1)

/-- A name not present in the temp directory (`tempfile.NamedTemporaryFile`). -/
def freshName (disk : List Nat) : Nat := disk.foldr max 0 + 1

/-- gemini.py `classify_file_with_gemini`: returns (verdict, remote calls,
temp directory after the call).  The `with NamedTemporaryFile(delete=True)`
block creates the artifact and deletes it when the block exits, normally or by
exception; `generate_content` runs after the block; every exception is caught
by the outer handler and yields `none`. -/
def classify_file_with_gemini (env : Env) (file : FileSt) (disk : List Nat) :
    Option String × Nat × List Nat :=
  if keyFalsy env.apiKey then (none, 0, disk)
  else if file.filename = "" then (none, 0, disk)  -- `if not file:` (FileStorage truthiness)
  else
    let tmp := freshName disk
    let disk1 := tmp :: disk
    match env.uploadOutcome with
    | .raises => (none, 1, disk1.erase tmp)
    | .falsyResource => (none, 1, disk1.erase tmp)
    | .resource =>
      let disk2 := disk1.erase tmp
      match env.fileResponse with
      | .error _ => (none, 2, disk2)
      | .ok reply => (some (clean_and_validate_prediction reply), 2, disk2)

/-- classifier.py `classify_by_content`: extract text, and if it is truthy,
classify it with Gemini; returns (verdict, remote text calls, file state). -/
def classify_by_content (env : Env) (file : FileSt) : Option String × Nat × FileSt :=
  let r := extract_text_from_file env file
  if truthyOpt r.1 then
    let g := classify_text_with_gemini env (r.1.getD "")
    if truthyOpt g.1 then (g.1, g.2, r.2) else (none, g.2, r.2)
  else (none, 0, r.2)

/-- classifier.py `classify_by_file`. -/
def classify_by_file (env : Env) (file : FileSt) (disk : List Nat) :
    Option String × Nat × List Nat :=
  let g := classify_file_with_gemini env file disk
  if truthyOpt g.1 then g else (none, g.2.1, g.2.2)

/-- Remote calls issued while serving one request, by tier. -/
structure Trace where
  textCalls : Nat
  fileCalls : Nat
deriving DecidableEq

/-- classifier.py `classify_file`: the three-tier pipeline.  Each tier's
verdict is tested with Python truthiness (`if category_from_...:`); the result
is the category string together with the remote-call trace and the final temp
directory. -/
def classify_file (env : Env) (file : FileSt) (disk : List Nat) :
    String × Trace × List Nat :=
  let c1 := classify_by_filename file.filename
  if truthyOpt c1 then (c1.getD "", ⟨0, 0⟩, disk)
  else
    let c2 := classify_by_content env file
    if truthyOpt c2.1 then (c2.1.getD "", ⟨c2.2.1, 0⟩, disk)
    else
      let c3 := classify_by_file env c2.2.2 disk
      if truthyOpt c3.1 then (c3.1.getD "", ⟨c2.2.1, c3.2.1⟩, c3.2.2)
      else ("unknown file", ⟨c2.2.1, c3.2.1⟩, c3.2.2)

/-! ## Helper lemmas -/

theorem scanRules_eq_none_iff (rules : List Rule) (nl : String) :
    scanRules rules nl = none ↔ ∀ r ∈ rules, ruleMatches r nl = false := by
  induction rules with
  | nil => simp [scanRules]
  | cons r rs ih =>
    cases hm : ruleMatches r nl with
    | true => simp [scanRules, hm]
    | false => simp [scanRules, hm, ih]

theorem scanRules_some_decomp {rules : List Rule} {nl c : String}
    (h : scanRules rules nl = some c) :
    ∃ pre rule post, rules = pre ++ rule :: post ∧ rule.category = c ∧
      ruleMatches rule nl = true ∧ ∀ r ∈ pre, ruleMatches r nl = false := by
  induction rules with
  | nil => simp [scanRules] at h
  | cons r rs ih =>
    cases hm : ruleMatches r nl with
    | true =>
      have hc : r.category = c := by simpa [scanRules, hm] using h
      exact ⟨[], r, rs, rfl, hc, hm, by simp⟩
    | false =>
      have h' : scanRules rs nl = some c := by simpa [scanRules, hm] using h
      obtain ⟨pre, rule, post, e, hcat, hmt, hpre⟩ := ih h'
      refine ⟨r :: pre, rule, post, by simp [e], hcat, hmt, ?_⟩
      intro x hx
      rcases List.mem_cons.mp hx with hx | hx
      · rw [hx]; exact hm
      · exact hpre x hx

theorem scanRules_some_mem {rules : List Rule} {nl c : String}
    (h : scanRules rules nl = some c) : c ∈ rules.map Rule.category := by
  induction rules with
  | nil => simp [scanRules] at h
  | cons r rs ih =>
    cases hm : ruleMatches r nl with
    | true =>
      have hc : r.category = c := by simpa [scanRules, hm] using h
      rw [← hc]; simp
    | false =>
      have h' : scanRules rs nl = some c := by simpa [scanRules, hm] using h
      simp [ih h']

theorem table_categories_ne_empty :
    ∀ c ∈ FILENAME_CLASSIFICATION_RULES.map Rule.category, ¬(c = "") := by decide

theorem possible_sub_table :
    ∀ c ∈ POSSIBLE_CATEGORIES, c ∈ FILENAME_CLASSIFICATION_RULES.map Rule.category := by
  decide

theorem validate_fixes_categories :
    ∀ c ∈ POSSIBLE_CATEGORIES, clean_and_validate_prediction c = c := by decide

theorem validate_shape (s : String) :
    clean_and_validate_prediction s ∈ POSSIBLE_CATEGORIES ∨
      clean_and_validate_prediction s = "unknown file" := by
  unfold clean_and_validate_prediction
  split
  · left; assumption
  · right; rfl

theorem text_result_shape (env : Env) (t : String) :
    (classify_text_with_gemini env t).1 = none ∨
      ∃ s, (classify_text_with_gemini env t).1 = some (clean_and_validate_prediction s) := by
  unfold classify_text_with_gemini
  split
  · exact Or.inl rfl
  · split
    · exact Or.inl rfl
    · cases h : env.textResponse with
      | error e => simp [h]
      | ok reply => right; exact ⟨reply, by simp [h]⟩

theorem file_result_shape (env : Env) (file : FileSt) (disk : List Nat) :
    (classify_file_with_gemini env file disk).1 = none ∨
      ∃ s, (classify_file_with_gemini env file disk).1 =
        some (clean_and_validate_prediction s) := by
  unfold classify_file_with_gemini
  split
  · exact Or.inl rfl
  · split
    · exact Or.inl rfl
    · cases hu : env.uploadOutcome with
      | raises => simp [hu]
      | falsyResource => simp [hu]
      | resource =>
        cases h : env.fileResponse with
        | error e => simp [hu, h]
        | ok reply => right; exact ⟨reply, by simp [hu, h]⟩

theorem content_result_shape (env : Env) (file : FileSt) :
    (classify_by_content env file).1 = none ∨
      ∃ s, (classify_by_content env file).1 = some (clean_and_validate_prediction s) := by
  unfold classify_by_content
  simp only
  split
  · split
    · simpa using text_result_shape env ((extract_text_from_file env file).1.getD "")
    · exact Or.inl rfl
  · exact Or.inl rfl

theorem by_file_result_shape (env : Env) (file : FileSt) (disk : List Nat) :
    (classify_by_file env file disk).1 = none ∨
      ∃ s, (classify_by_file env file disk).1 = some (clean_and_validate_prediction s) := by
  unfold classify_by_file
  simp only
  split
  · simpa using file_result_shape env file disk
  · exact Or.inl rfl

/-! ## Concrete instances for witnesses and counterexamples -/

/-- A request environment: key configured, plain-text payload, the remote text
tier replies with the hallucinated category "banana", the whole-document tier
would reply "passport". -/
def envA : Env :=
  ⟨some "key", "text/plain", .ok [], 0, .ok "", .ok [], 0, .ok [], 0,
   .ok "banana", .resource, .ok "passport"⟩

/-- Environment with the API credential unset (`GEMINI_API_KEY` is None). -/
def envNoKey : Env :=
  ⟨none, "text/plain", .ok [], 0, .ok "", .ok [], 0, .ok [], 0,
   .ok "banana", .resource, .ok "passport"⟩

/-- Environment whose detected MIME type has no extraction strategy. -/
def envZip : Env :=
  ⟨some "key", "application/zip", .ok [], 0, .ok "", .ok [], 0, .ok [], 0,
   .ok "invoice", .resource, .ok "invoice"⟩

/-- A PDF environment: the parser succeeds with one page of text and leaves the
stream position at 5 (the library consumed the 5-byte stream). -/
def envPdf : Env :=
  ⟨some "key", "application/pdf", .ok ["hello"], 5, .ok "", .ok [], 0, .ok [], 0,
   .ok "invoice", .resource, .ok "invoice"⟩

/-- A filename with no configured keyword, 5 bytes of content. -/
def fileMystery : FileSt := ⟨"mystery.pdf", "hello".data, 0⟩

/-- A filename matching the "invoice" rule. -/
def fileInvoice : FileSt := ⟨"invoice_jan.pdf", [], 0⟩

/-- A plain-text payload consisting only of whitespace, non-matching filename. -/
def fileWs : FileSt := ⟨"mystery_doc.bin", "   ".data, 0⟩

/-- A 5-byte payload handed to the PDF branch, stream initially at 0. -/
def filePdf : FileSt := ⟨"scan001.bin", "hello".data, 0⟩

/-! ## Claims -/

/-- C2: for every input document and filename, the value returned by
`classify_file` is either a category string appearing in at least one rule of
the filename rule table, or the sentinel "unknown file"; never an arbitrary or
unvalidated string. -/
theorem spec_C2_closed_verdict_set (env : Env) (file : FileSt) (disk : List Nat) :
    (classify_file env file disk).1 = "unknown file" ∨
      (classify_file env file disk).1 ∈ FILENAME_CLASSIFICATION_RULES.map Rule.category := by
  unfold classify_file
  simp only
  split
  · rename_i h1
    cases hc : classify_by_filename file.filename with
    | none => rw [hc] at h1; simp [truthyOpt] at h1
    | some c =>
      right
      simpa using scanRules_some_mem (show scanRules _ _ = some c from hc)
  · split
    · rename_i h2
      rcases content_result_shape env file with h | ⟨s, h⟩
      · rw [h] at h2; simp [truthyOpt] at h2
      · rw [h]
        simp only [Option.getD_some]
        rcases validate_shape s with hv | hv
        · exact Or.inr (possible_sub_table _ hv)
        · exact Or.inl hv
    · split
      · rename_i h3
        rcases by_file_result_shape env (classify_by_content env file).2.2 disk with h | ⟨s, h⟩
        · rw [h] at h3; simp [truthyOpt] at h3
        · rw [h]
          simp only [Option.getD_some]
          rcases validate_shape s with hv | hv
          · exact Or.inr (possible_sub_table _ hv)
          · exact Or.inl hv
      · left; rfl

/-- C3: the Filename Rule Matcher lower-cases the filename, scans rules in
table order, and returns the category of the first rule with a keyword that is
a substring of the lower-cased filename (earlier rules shadow later ones); with
no match it returns absence, never an error. -/
theorem spec_C3_first_match_wins (rules : List Rule) (filename : String) :
    (classify_by_filename filename =
       scanRules FILENAME_CLASSIFICATION_RULES (pyLower filename))
    ∧ (scanRules rules (pyLower filename) = none ↔
        ∀ r ∈ rules, ruleMatches r (pyLower filename) = false)
    ∧ (∀ c, scanRules rules (pyLower filename) = some c →
        ∃ pre rule post, rules = pre ++ rule :: post ∧ rule.category = c ∧
          ruleMatches rule (pyLower filename) = true ∧
          ∀ r ∈ pre, ruleMatches r (pyLower filename) = false) :=
  ⟨rfl, scanRules_eq_none_iff rules (pyLower filename),
   fun _ h => scanRules_some_decomp h⟩

/-- C3 witness: on "My_Invoice_2024.pdf" the matcher commits to the "invoice"
rule, which is the earliest matching rule of the table. -/
theorem spec_C3_witness :
    ∃ pre rule post, FILENAME_CLASSIFICATION_RULES = pre ++ rule :: post ∧
      rule.category = "invoice" ∧
      ruleMatches rule (pyLower "My_Invoice_2024.pdf") = true ∧
      ∀ r ∈ pre, ruleMatches r (pyLower "My_Invoice_2024.pdf") = false :=
  (spec_C3_first_match_wins FILENAME_CLASSIFICATION_RULES "My_Invoice_2024.pdf").2.2
    "invoice" (by decide)

/-- C9: `classify_file_with_gemini` leaves the temp-file directory exactly as it
found it in every outcome — missing key, upload exception, falsy upload result,
and classification success or failure alike. -/
theorem spec_C9_temp_artifact_cleanup (env : Env) (file : FileSt) (disk : List Nat) :
    (classify_file_with_gemini env file disk).2.2 = disk := by
  unfold classify_file_with_gemini
  simp only
  split
  · rfl
  · split
    · rfl
    · cases hu : env.uploadOutcome with
      | raises => simp [List.erase_cons_head]
      | falsyResource => simp [List.erase_cons_head]
      | resource =>
        cases hr : env.fileResponse with
        | error e => simp [List.erase_cons_head]
        | ok reply => simp [List.erase_cons_head]

/-- C4: a filename containing a configured keyword is classified by the
filename tier alone: `classify_file` returns that tier's category with zero
remote calls (no text-classification call, no upload, no whole-document call)
and an untouched temp directory. -/
theorem spec_C4_filename_short_circuit (env : Env) (file : FileSt) (disk : List Nat)
    (h : ∃ r ∈ FILENAME_CLASSIFICATION_RULES, ruleMatches r (pyLower file.filename) = true) :
    ∃ c, classify_by_filename file.filename = some c ∧
      classify_file env file disk = (c, ⟨0, 0⟩, disk) := by
  have hne : ¬(classify_by_filename file.filename = none) := by
    intro h0
    obtain ⟨r, hr, hm⟩ := h
    have hf := (scanRules_eq_none_iff FILENAME_CLASSIFICATION_RULES (pyLower file.filename)).mp
      (show scanRules _ _ = none from h0) r hr
    rw [hm] at hf
    cases hf
  cases hc : classify_by_filename file.filename with
  | none => exact absurd hc hne
  | some c =>
    refine ⟨c, rfl, ?_⟩
    have hmem : c ∈ FILENAME_CLASSIFICATION_RULES.map Rule.category :=
      scanRules_some_mem (show scanRules _ _ = some c from hc)
    have hcne : ¬(c = "") := table_categories_ne_empty c hmem
    unfold classify_file
    simp only
    rw [hc]
    simp [truthyOpt, hcne]

/-- C4 witness: "invoice_jan.pdf" is classified "invoice" by tier 1 with zero
remote calls. -/
theorem spec_C4_witness :
    ∃ c, classify_by_filename fileInvoice.filename = some c ∧
      classify_file envA fileInvoice [] = (c, ⟨0, 0⟩, []) :=
  spec_C4_filename_short_circuit envA fileInvoice [] (by decide)

/-- C5: with the API credential absent, both remote tiers return absence with
zero remote calls and no exception, and the pipeline completes via the
filename tier or the sentinel. -/
theorem spec_C5_missing_key (env : Env) (file : FileSt) (disk : List Nat) (text : String)
    (h : env.apiKey = none) :
    classify_text_with_gemini env text = (none, 0)
    ∧ classify_file_with_gemini env file disk = (none, 0, disk)
    ∧ classify_file env file disk =
        ((if truthyOpt (classify_by_filename file.filename) then
            (classify_by_filename file.filename).getD ""
          else "unknown file"), ⟨0, 0⟩, disk) := by
  have hk : keyFalsy env.apiKey = true := by simp [keyFalsy, h]
  have htext : ∀ t, classify_text_with_gemini env t = (none, 0) := by
    intro t
    unfold classify_text_with_gemini
    rw [hk]
    simp
  have hfileg : ∀ f d, classify_file_with_gemini env f d = (none, 0, d) := by
    intro f d
    unfold classify_file_with_gemini
    rw [hk]
    simp
  refine ⟨htext text, hfileg file disk, ?_⟩
  have hcontent : classify_by_content env file = (none, 0, (extract_text_from_file env file).2) := by
    unfold classify_by_content
    simp only
    split
    · rw [htext]; simp [truthyOpt]
    · rfl
  have hby : ∀ f d, classify_by_file env f d = (none, 0, d) := by
    intro f d
    unfold classify_by_file
    rw [hfileg]
    simp [truthyOpt]
  unfold classify_file
  simp only
  split
  · rfl
  · rw [hcontent, hby]
    simp [truthyOpt]

/-- C5 witness: with no key, "hello" text classification and a whole-document
attempt both return absence at zero remote calls, and the non-matching
filename "mystery.pdf" yields the sentinel. -/
theorem spec_C5_witness :
    classify_text_with_gemini envNoKey "hello" = (none, 0)
    ∧ classify_file_with_gemini envNoKey fileMystery [] = (none, 0, [])
    ∧ classify_file envNoKey fileMystery [] =
        ((if truthyOpt (classify_by_filename fileMystery.filename) then
            (classify_by_filename fileMystery.filename).getD ""
          else "unknown file"), ⟨0, 0⟩, []) :=
  spec_C5_missing_key envNoKey fileMystery [] "hello" rfl

/-- C6 (amended): any remote reply whose normalized form (trimmed, lower-cased,
apostrophes stripped) is not in the known category set is mapped to
"unknown file", and normalization-and-validation is idempotent on every
string. -/
theorem spec_C6_validation_idempotent (s : String) :
    (cleanedPrediction s ∉ POSSIBLE_CATEGORIES →
      clean_and_validate_prediction s = "unknown file")
    ∧ clean_and_validate_prediction (clean_and_validate_prediction s) =
        clean_and_validate_prediction s := by
  constructor
  · intro h
    unfold clean_and_validate_prediction
    rw [if_neg h]
  · by_cases h : cleanedPrediction s ∈ POSSIBLE_CATEGORIES
    · have h1 : clean_and_validate_prediction s = cleanedPrediction s := by
        unfold clean_and_validate_prediction
        rw [if_pos h]
      rw [h1]
      exact validate_fixes_categories _ h
    · have h1 : clean_and_validate_prediction s = "unknown file" := by
        unfold clean_and_validate_prediction
        rw [if_neg h]
      rw [h1]
      decide

/-- C6 counterexample: the raw reply "INVOICE" is not a member of the known
category set, yet the classifier's normalized result is "invoice", not
"unknown file" — the claim quantified over raw responses is false. -/
theorem spec_C6_counterexample :
    "INVOICE" ∉ POSSIBLE_CATEGORIES
    ∧ clean_and_validate_prediction "INVOICE" = "invoice"
    ∧ ¬(("invoice" : String) = "unknown file") := by decide

/-- C6 witness: "banana" normalizes outside the category set and is coerced to
the sentinel; re-validating is a no-op. -/
theorem spec_C6_witness :
    clean_and_validate_prediction "banana" = "unknown file"
    ∧ clean_and_validate_prediction (clean_and_validate_prediction "banana") =
        clean_and_validate_prediction "banana" :=
  ⟨(spec_C6_validation_idempotent "banana").1 (by decide),
   (spec_C6_validation_idempotent "banana").2⟩

/-- MIME types that have an extraction strategy in extractor.py. -/
def supportedMimes : List String :=
  [mimePdf, "image/png", "image/jpeg", "image/tiff", mimeDocx, mimeXlsx, "text/plain"]

/-- A parser-library failure for a supported type (the `except` at extractor.py
line 111 catches it). -/
def parserFailed (env : Env) : Prop :=
  (env.mime = mimePdf ∧ env.pdfPages = .error ())
  ∨ (env.mime ∈ imageMimes ∧ env.ocrText = .error ())
  ∨ (env.mime = mimeDocx ∧ env.docxParas = .error ())
  ∨ (env.mime = mimeXlsx ∧ env.xlsxCells = .error ())

/-- C7: `extract_text_from_file` never raises to its caller: a detected MIME
type with no strategy yields absence, and a parser-level failure for a
supported type is caught and likewise yields absence. -/
theorem spec_C7_extract_never_throws (env : Env) (file : FileSt)
    (h : env.mime ∉ supportedMimes ∨ parserFailed env) :
    (extract_text_from_file env file).1 = none := by
  rcases h with h | h
  · have h1 : ¬(env.mime = mimePdf) := by
      intro e; apply h; rw [e]; decide
    have himg : ∀ x ∈ imageMimes, x ∈ supportedMimes := by decide
    have h2 : ¬(env.mime ∈ imageMimes) := fun e => h (himg _ e)
    have h3 : ¬(env.mime = mimeDocx) := by
      intro e; apply h; rw [e]; decide
    have h4 : ¬(env.mime = mimeXlsx) := by
      intro e; apply h; rw [e]; decide
    have h5 : ¬(env.mime = "text/plain") := by
      intro e; apply h; rw [e]; decide
    unfold extract_text_from_file
    simp only
    rw [if_neg h1, if_neg h2, if_neg h3, if_neg h4, if_neg h5]
  · rcases h with ⟨he, hp⟩ | ⟨he, hp⟩ | ⟨he, hp⟩ | ⟨he, hp⟩
    · unfold extract_text_from_file
      simp only
      rw [if_pos he, hp]
    · have h1 : ¬(env.mime = mimePdf) := by
        intro e; rw [e] at he; exact absurd he (by decide)
      unfold extract_text_from_file
      simp only
      rw [if_neg h1, if_pos he, hp]
    · have h1 : ¬(env.mime = mimePdf) := by
        intro e; rw [e] at he; exact absurd he (by decide)
      have h2 : ¬(env.mime ∈ imageMimes) := by
        intro e; rw [he] at e; exact absurd e (by decide)
      unfold extract_text_from_file
      simp only
      rw [if_neg h1, if_neg h2, if_pos he, hp]
    · have h1 : ¬(env.mime = mimePdf) := by
        intro e; rw [e] at he; exact absurd he (by decide)
      have h2 : ¬(env.mime ∈ imageMimes) := by
        intro e; rw [he] at e; exact absurd e (by decide)
      have h3 : ¬(env.mime = mimeDocx) := by
        intro e; rw [e] at he; exact absurd he (by decide)
      unfold extract_text_from_file
      simp only
      rw [if_neg h1, if_neg h2, if_neg h3, if_pos he, hp]

/-- C7 witness: an "application/zip" buffer yields absence, not an error. -/
theorem spec_C7_witness : (extract_text_from_file envZip fileMystery).1 = none :=
  spec_C7_extract_never_throws envZip fileMystery (Or.inl (by decide))

/-- C1 (code behaviour at the failing input): with no filename match, the text
tier's reply "banana" is coerced to the sentinel "unknown file", which is a
truthy Python string, so `classify_file` returns it immediately with zero
whole-document calls — tier 3 never executes, although on its own it would
have returned the validated category "passport" (second conjunct). -/
theorem spec_C1_sentinel_skips_tier3 :
    classify_file envA fileMystery [] = ("unknown file", ⟨1, 0⟩, [])
    ∧ classify_by_file envA fileMystery [] = (some "passport", 2, []) := by decide

/-- The extractor's result and final state never depend on the incoming stream
position: the function seeks to 0 before reading. -/
theorem extract_ignores_pos (env : Env) (fn : String) (d : List Char) (p q : Nat) :
    extract_text_from_file env ⟨fn, d, p⟩ = extract_text_from_file env ⟨fn, d, q⟩ := rfl

/-- The extractor returns the stream with its buffer and filename unchanged;
only the position may move. -/
theorem extract_shape (env : Env) (file : FileSt) :
    ∃ p, (extract_text_from_file env file).2 = ⟨file.filename, file.data, p⟩ := by
  unfold extract_text_from_file
  simp only
  by_cases h1 : env.mime = mimePdf
  · rw [if_pos h1]
    cases hp : env.pdfPages with
    | error e => exact ⟨env.pdfFinalPos, rfl⟩
    | ok pages => exact ⟨env.pdfFinalPos, rfl⟩
  · rw [if_neg h1]
    by_cases h2 : env.mime ∈ imageMimes
    · rw [if_pos h2]
      cases ho : env.ocrText with
      | error e => exact ⟨0, rfl⟩
      | ok t => exact ⟨0, rfl⟩
    · rw [if_neg h2]
      by_cases h3 : env.mime = mimeDocx
      · rw [if_pos h3]
        cases hd : env.docxParas with
        | error e => exact ⟨env.docxFinalPos, rfl⟩
        | ok paras => exact ⟨env.docxFinalPos, rfl⟩
      · rw [if_neg h3]
        by_cases h4 : env.mime = mimeXlsx
        · rw [if_pos h4]
          cases hx : env.xlsxCells with
          | error e => exact ⟨env.xlsxFinalPos, rfl⟩
          | ok cells => exact ⟨env.xlsxFinalPos, rfl⟩
        · rw [if_neg h4]
          by_cases h5 : env.mime = "text/plain"
          · rw [if_pos h5]
            exact ⟨0, rfl⟩
          · rw [if_neg h5]
            exact ⟨0, rfl⟩

/-- C8 (amended): the extractor never modifies the buffer or filename, and
because it explicitly rewinds the stream at the start of each call (and again
after its initial full read), a second call on the same file returns exactly
the first call's result and final state; the position after a call, however,
is wherever the dispatched parser left it, not necessarily 0. -/
theorem spec_C8_idempotent_re_readable (env : Env) (file : FileSt) :
    ((extract_text_from_file env file).2.data = file.data
      ∧ (extract_text_from_file env file).2.filename = file.filename)
    ∧ extract_text_from_file env ((extract_text_from_file env file).2) =
        extract_text_from_file env file := by
  obtain ⟨p, hp⟩ := extract_shape env file
  refine ⟨⟨by rw [hp], by rw [hp]⟩, ?_⟩
  rw [hp]
  exact extract_ignores_pos env file.filename file.data p file.pos

/-- C8 counterexample: for a successfully parsed PDF the stream position after
the call is 5 (where the parser left it), not rewound to 0 — the call starts at
position 0 and does not rewind afterwards. -/
theorem spec_C8_counterexample :
    filePdf.pos = 0
    ∧ (extract_text_from_file envPdf filePdf).2.pos = 5
    ∧ ¬((extract_text_from_file envPdf filePdf).2.pos = 0) := by decide

/-- Stripping a list of whitespace characters leaves nothing. -/
theorem pyStripL_all_space {l : List Char} (h : ∀ c ∈ l, pyIsSpace c = true) :
    pyStripL l = [] := by
  unfold pyStripL
  rw [List.dropWhile_eq_nil_iff.mpr h]
  rfl

/-- C10: a plain-text payload whose content is non-empty but all whitespace
makes the extractor return the empty string (the decoded content is appended
unconditionally, then the final join-and-strip trims it away), not absence;
`classify_by_content` treats that empty string like absence — no
text-classification call is made — and the pipeline falls through to the
whole-document tier. -/
theorem spec_C10_whitespace_empty_string (env : Env) (file : FileSt) (disk : List Nat)
    (hm : env.mime = "text/plain")
    (_hne : ¬(file.data = []))
    (hws : ∀ c ∈ file.data, pyIsSpace c = true)
    (hfn : classify_by_filename file.filename = none) :
    (extract_text_from_file env file).1 = some ""
    ∧ classify_by_content env file = (none, 0, (extract_text_from_file env file).2)
    ∧ classify_file env file disk =
        (let c3 := classify_by_file env (extract_text_from_file env file).2 disk
         if truthyOpt c3.1 then (c3.1.getD "", ⟨0, c3.2.1⟩, c3.2.2)
         else ("unknown file", ⟨0, c3.2.1⟩, c3.2.2)) := by
  have h1 : ¬(env.mime = mimePdf) := by rw [hm]; decide
  have h2 : ¬(env.mime ∈ imageMimes) := by rw [hm]; decide
  have h3 : ¬(env.mime = mimeDocx) := by rw [hm]; decide
  have h4 : ¬(env.mime = mimeXlsx) := by rw [hm]; decide
  have hx : extract_text_from_file env file = (some "", ⟨file.filename, file.data, 0⟩) := by
    unfold extract_text_from_file
    simp only
    rw [if_neg h1, if_neg h2, if_neg h3, if_neg h4, if_pos hm]
    unfold finishParts
    rw [if_neg (by simp)]
    have hj : joinNL [String.mk file.data] = String.mk file.data := rfl
    rw [hj]
    have hs : pyStrip (String.mk file.data) = "" := by
      unfold pyStrip
      rw [show (String.mk file.data).data = file.data from rfl, pyStripL_all_space hws]
    rw [hs]
  have hcontent : classify_by_content env file = (none, 0, (extract_text_from_file env file).2) := by
    unfold classify_by_content
    simp only
    rw [hx]
    simp [truthyOpt, hx]
  refine ⟨by rw [hx], hcontent, ?_⟩
  unfold classify_file
  simp only
  rw [hfn]
  simp only [truthyOpt, Option.getD_none]
  rw [hcontent]
  simp [truthyOpt]

/-- C10 witness: a whitespace-only plain-text payload under a non-matching
filename yields `some ""` from the extractor, no text call, and the tier-3
fallthrough. -/
theorem spec_C10_witness :
    (extract_text_from_file envA fileWs).1 = some ""
    ∧ classify_by_content envA fileWs = (none, 0, (extract_text_from_file envA fileWs).2)
    ∧ classify_file envA fileWs [] =
        (let c3 := classify_by_file envA (extract_text_from_file envA fileWs).2 []
         if truthyOpt c3.1 then (c3.1.getD "", ⟨0, c3.2.1⟩, c3.2.2)
         else ("unknown file", ⟨0, c3.2.1⟩, c3.2.2)) :=
  spec_C10_whitespace_empty_string envA fileWs [] rfl (by decide) (by decide) (by decide)

end JoinTheSiege
